import Mathlib

/-!
Verification of the healthchecksio Home Assistant integration
(`custom_components/healthchecksio/__init__.py`) against its
natural-language specification.

The integration module is embedded shallowly: the entry setup, unload,
options-update listener and config-entry migration become pure Lean
functions over explicit data.  Parts of the repository that live outside
the provided source file (the coordinator module, the constants module,
the URL-cleaning helper) are modelled from the specification; each such
definition carries a doc comment starting with `Modelled from the spec:`.
Host-framework effects (raising a failed first refresh, forwarding
platforms, updating the registry) are represented by explicit outcome
parameters and effect traces.
-/

/-- Python `s.startswith(p)`: the characters of `p` are a prefix of the
characters of `s`. -/
def pyStartsWith (s p : String) : Bool :=
  p.data.isPrefixOf s.data

/-- Python `entity_id.split(".")[0]`: the characters of the string before
the first dot (the platform part of an entity id). -/
def platformOf (entityId : String) : String :=
  ⟨entityId.data.takeWhile (fun c => c ≠ '.')⟩

/-- Helper of `pyDedup`: keeps the elements not seen yet, first
occurrences first, threading the set of elements already seen. -/
def pyDedupAux {α : Type} [DecidableEq α] (seen : List α) :
    List α → List α
  | [] => []
  | x :: xs =>
      if x ∈ seen then pyDedupAux seen xs
      else x :: pyDedupAux (x :: seen) xs

/-- Python `list(dict.fromkeys(l))`: the list with duplicates removed,
keeping the first occurrence of each element in order. -/
def pyDedup {α : Type} [DecidableEq α] (l : List α) : List α :=
  pyDedupAux [] l

/-- Modelled from the spec: `const.py` is not under the provided sources.
The default site root of the official hosted service; per the spec the
hosted service is reached over HTTPS. -/
def DEFAULT_SITE_ROOT : String := "https://healthchecks.io"

/-- Modelled from the spec: `const.py` is not under the provided sources.
The default ping endpoint of the official hosted service
(`https://hc-ping.com`). -/
def DEFAULT_PING_ENDPOINT : String := "https://hc-ping.com"

/-- The configuration-entry data dictionary, with the keys the integration
reads.  Keys that a version-1 entry may lack, and keys read with `.get`,
are `Option`s or `Bool`s (an absent key reads as falsy `None`). -/
structure EntryData where
  api_key : String
  site_root : String
  ping_endpoint : String
  self_hosted : Bool
  create_binary_sensor : Bool
  create_sensor : Bool
  ping_uuid : Option String
  check : Option String
deriving DecidableEq, BEq, Repr

/-- A config entry: schema version, data dictionary and unique id. -/
structure ConfigEntryModel where
  version : Nat
  data : EntryData
  unique_id : Option String
deriving DecidableEq, BEq, Repr

/-- An entity-registry entry: its entity id (`platform.object_id`) and its
unique id. -/
structure RegistryEnt where
  entity_id : String
  unique_id : String
deriving DecidableEq, BEq, Repr

/-- Modelled from the spec: `coordinator.py` is not under the provided
sources.  The error wrapping a fetch failure of the mandatory first
refresh. -/
inductive CoordinatorInitError where
  | initFailed (cause : String)
deriving DecidableEq, Repr

/-- The coordinator construction arguments captured by
`async_setup_entry`: credentials, endpoints, the `verify_ssl` flag passed
when creating each of the two client sessions, and the ping identifier. -/
structure CoordinatorArgs where
  api_key : String
  site_root : String
  ping_endpoint : String
  ping_verify_ssl : Bool
  check_verify_ssl : Bool
  ping_uuid : Option String
deriving DecidableEq, Repr

/-- The coordinator as constructed by `async_setup_entry`:
`verify_ssl` of the ping session is `ping_endpoint.startswith("https")`,
`verify_ssl` of the check session is `site_root.startswith("https")`. -/
def mkCoordinator (d : EntryData) : CoordinatorArgs :=
  { api_key := d.api_key
    site_root := d.site_root
    ping_endpoint := d.ping_endpoint
    ping_verify_ssl := pyStartsWith d.ping_endpoint "https"
    check_verify_ssl := pyStartsWith d.site_root "https"
    ping_uuid := d.ping_uuid }

/-- The platform list built by `async_setup_entry` from the entry data. -/
def platformList (d : EntryData) : List String :=
  (if d.create_binary_sensor then ["binary_sensor"] else []) ++
    (if d.create_sensor then ["sensor"] else [])

/-- Host-visible effects of `async_setup_entry`, in order. -/
inductive SetupEffect where
  | firstRefresh
  | forwardPlatforms (platforms : List String)
deriving DecidableEq, Repr

/-- `async_setup_entry`: builds the coordinator, runs the mandatory first
refresh, and only then forwards the entry to its platforms.  The outcome
of `async_config_entry_first_refresh` (framework code; per the spec it
raises on a failed first refresh) is an explicit `Except` parameter; a
raised error propagates to the caller, so no platforms are forwarded and
the setup result is the error itself. -/
def async_setup_entry (d : EntryData)
    (firstRefresh : Except CoordinatorInitError Unit) :
    Except CoordinatorInitError (Bool × CoordinatorArgs) × List SetupEffect :=
  let coordinator := mkCoordinator d
  match firstRefresh with
  | .error e => (.error e, [SetupEffect.firstRefresh])
  | .ok _ =>
      (.ok (true, coordinator),
        [SetupEffect.firstRefresh, SetupEffect.forwardPlatforms (platformList d)])

/-- The state of a config entry, as tested by `async_unload_entry`. -/
inductive ConfigEntryState where
  | loaded
  | unloadInProgress
  | notLoaded
  | setupError
  | setupRetry
  | setupInProgress
deriving DecidableEq, Repr

/-- One entry of `entity_platform.async_get_platforms(hass, DOMAIN)`: its
domain and, when bound, the owning config entry (entry id and state). -/
structure PlatformObj where
  domain : String
  owner : Option (String × ConfigEntryState)
deriving DecidableEq, Repr

/-- The `active_platforms` list comprehension of `async_unload_entry`:
platforms whose config entry is this entry and is loaded or mid-unload. -/
def activePlatforms (platforms : List PlatformObj) (entryId : String) :
    List String :=
  (platforms.filter (fun p =>
    match p.owner with
    | some (eid, st) =>
        eid == entryId &&
          (st == ConfigEntryState.loaded || st == ConfigEntryState.unloadInProgress)
    | none => false)).map (fun p => p.domain)

/-- Outcome of the framework call `async_unload_platforms`: a boolean
result, or one of the two exception classes the caller catches. -/
inductive UnloadOutcome where
  | ok (b : Bool)
  | valueError
  | operationNotAllowed
deriving DecidableEq, Repr

/-- `async_unload_entry`: collects the active platforms of the entry,
deduplicates them, and if any remain unloads them in one framework call,
mapping a raised `ValueError` or `OperationNotAllowed` to a `False`
result.  Returns the result together with the platform list passed to the
unload call (`none` when no call was made). -/
def async_unload_entry (platforms : List PlatformObj) (entryId : String)
    (unloadResult : List String → UnloadOutcome) :
    Bool × Option (List String) :=
  let unique_platforms := pyDedup (activePlatforms platforms entryId)
  if unique_platforms = [] then (true, none)
  else
    match unloadResult unique_platforms with
    | .ok b => (b, some unique_platforms)
    | .valueError => (false, some unique_platforms)
    | .operationNotAllowed => (false, some unique_platforms)

/-- Outcome of `entity_registry.async_remove` for one entity: success or
one of the two exception classes the listener catches and logs. -/
inductive RemoveOutcome where
  | ok
  | keyError
  | valueError
deriving DecidableEq, Repr

/-- Host-visible actions of the options-update listener, in order. -/
inductive ListenerAction where
  | removeAttempt (entityId : String)
  | reload
deriving DecidableEq, Repr

/-- The per-entity test of `_async_update_listener`: the entity belongs to
a platform whose creation flag is now off. -/
def disabledPlatform (bs sensor : Bool) (e : RegistryEnt) : Bool :=
  (platformOf e.entity_id == "sensor" && !sensor) ||
    (platformOf e.entity_id == "binary_sensor" && !bs)

/-- The entity loop of `_async_update_listener`: each now-disabled entity
gets one removal attempt; a `KeyError` or `ValueError` from the removal is
caught and logged and the loop continues with the next entity. -/
def listenerLoop (bs sensor : Bool) (removeResult : String → RemoveOutcome) :
    List RegistryEnt → List ListenerAction
  | [] => []
  | e :: rest =>
      if disabledPlatform bs sensor e then
        match removeResult e.entity_id with
        | .ok =>
            ListenerAction.removeAttempt e.entity_id ::
              listenerLoop bs sensor removeResult rest
        | .keyError =>
            ListenerAction.removeAttempt e.entity_id ::
              listenerLoop bs sensor removeResult rest
        | .valueError =>
            ListenerAction.removeAttempt e.entity_id ::
              listenerLoop bs sensor removeResult rest
      else listenerLoop bs sensor removeResult rest

/-- `_async_update_listener` (Lean name without the leading underscore):
runs the removal loop over the registry entries of the entry, then reloads
the config entry. -/
def async_update_listener (d : EntryData) (ents : List RegistryEnt)
    (removeResult : String → RemoveOutcome) : List ListenerAction :=
  listenerLoop d.create_binary_sensor d.create_sensor removeResult ents ++
    [ListenerAction.reload]

/-- The entry-data transform of `_migrate_1_to_2`: force the binary-sensor
flag on and the sensor flag off, move the legacy `check` key to
`ping_uuid`, and rebuild the endpoints — self-hosted entries get
`clean_url(f"{site_root}/{ping_endpoint}")` (the `clean_url` helper lives
outside the provided sources and is passed in as `cu`), hosted entries get
the official defaults. -/
def migrateData (cu : String → String) (d : EntryData) : EntryData :=
  let d1 : EntryData :=
    { d with
      create_binary_sensor := true
      create_sensor := false
      ping_uuid := d.check
      check := none }
  if d.self_hosted then
    { d1 with ping_endpoint := cu (d.site_root ++ "/" ++ d.ping_endpoint) }
  else
    { d1 with
      site_root := DEFAULT_SITE_ROOT
      ping_endpoint := DEFAULT_PING_ENDPOINT }

/-- The per-entity rename of the `_migrate_1_to_2` registry pass: a
binary-sensor entity whose unique id does not already start with
`binary_sensor_` gets that text prepended; every other entity is skipped.
The framework call `async_update_entity` applying the rename is modelled
as succeeding (its `ValueError` branch leaves the entity unchanged, which
the skip case already covers). -/
def migrateEnt (e : RegistryEnt) : RegistryEnt :=
  if (platformOf e.entity_id != "binary_sensor") ||
      pyStartsWith e.unique_id "binary_sensor_" then e
  else { e with unique_id := "binary_sensor_" ++ e.unique_id }

/-- The whole registry pass of `_migrate_1_to_2`. -/
def entityPass (reg : List RegistryEnt) : List RegistryEnt :=
  reg.map migrateEnt

/-- `_migrate_1_to_2`: transforms the entry data, renames the registry
entities, and commits via the framework call `async_update_entry` with the
new data, the api key as unique id, and version 2.  `async_update_entry`
applies the changes and reports whether anything changed; an unchanged
entry makes the migration return `False`. -/
def migrate_1_to_2 (cu : String → String) (e : ConfigEntryModel)
    (reg : List RegistryEnt) : Bool × ConfigEntryModel × List RegistryEnt :=
  let newData := migrateData cu e.data
  let newUid : Option String := some newData.api_key
  let newReg := entityPass reg
  let newEntry : ConfigEntryModel :=
    { version := 2, data := newData, unique_id := newUid }
  let changed : Bool :=
    (e.data != newData) || (e.unique_id != newUid) || (e.version != 2)
  (changed, newEntry, newReg)

/-- `async_migrate_entry`: refuses entries from a future schema (version
above 2) untouched with result `False`; migrates version-1 entries via
`migrate_1_to_2`, failing when that step fails; reports success for
anything else (version 2 in particular) without running any step. -/
def async_migrate_entry (cu : String → String) (e : ConfigEntryModel)
    (reg : List RegistryEnt) : Bool × ConfigEntryModel × List RegistryEnt :=
  if 2 < e.version then (false, e, reg)
  else if e.version = 1 then
    match migrate_1_to_2 cu e reg with
    | (true, e2, reg2) => (true, e2, reg2)
    | (false, e2, reg2) => (false, e2, reg2)
  else (true, e, reg)

/-- Modelled from the spec: `coordinator.py` is not under the provided
sources.  One monitored check as parsed from the status API. -/
structure CheckRecord where
  id : String
  name : String
  status : String
  lastPing : Option Nat
  nPings : Nat
deriving DecidableEq, Repr

/-- Modelled from the spec: `coordinator.py` is not under the provided
sources.  The last-known-good state of the coordinator: records, capture
timestamp and freshness flag. -/
structure StatusSnapshot where
  records : List CheckRecord
  capturedAt : Nat
  fresh : Bool
deriving DecidableEq, Repr

/-- Modelled from the spec: `coordinator.py` is not under the provided
sources.  The error taxonomy of a failed status fetch. -/
inductive RemoteFetchError where
  | timeout
  | transport
  | httpStatus (code : Nat)
  | parseFailure
deriving DecidableEq, Repr

/-- Modelled from the spec: `coordinator.py` is not under the provided
sources.  The coordinator state between cycles: the snapshot plus the
last recorded fetch error. -/
structure CoordinatorState where
  snapshot : StatusSnapshot
  lastError : Option RemoteFetchError
deriving DecidableEq, Repr

/-- The consumer-facing read interface: returns the last-known snapshot. -/
def getSnapshot (st : CoordinatorState) : StatusSnapshot := st.snapshot

/-- The two remote calls a refresh cycle can issue. -/
inductive RemoteCall where
  | fetchStatus
  | sendPing
deriving DecidableEq, Repr

/-- Modelled from the spec: `coordinator.py` is not under the provided
sources.  One refresh cycle of the coordinator, from `Idle` back to
`Idle`: fetch, then on success replace the snapshot wholesale (records,
capture time, freshness true) and ping; on failure keep the snapshot
untouched apart from clearing the freshness flag, record the error and do
not ping.  Returns the new state and the remote calls issued, in order. -/
def refreshCycle (st : CoordinatorState) (now : Nat)
    (fetchResult : Except RemoteFetchError (List CheckRecord)) :
    CoordinatorState × List RemoteCall :=
  match fetchResult with
  | .error e =>
      ({ snapshot := { st.snapshot with fresh := false }, lastError := some e },
        [RemoteCall.fetchStatus])
  | .ok recs =>
      ({ snapshot := { records := recs, capturedAt := now, fresh := true },
         lastError := none },
        [RemoteCall.fetchStatus, RemoteCall.sendPing])

/-- Modelled from the spec: `coordinator.py` is not under the provided
sources.  The ping URL: `{pingEndpoint}/{pingIdentifier}` when
self-hosted, `https://hc-ping.com/{pingIdentifier}` for the official
hosted service. -/
def pingURL (selfHosted : Bool) (pingEndpoint pingIdentifier : String) :
    String :=
  if selfHosted then pingEndpoint ++ "/" ++ pingIdentifier
  else "https://hc-ping.com/" ++ pingIdentifier

theorem string_data_append (s t : String) : (s ++ t).data = s.data ++ t.data := by
  cases s; cases t; rfl

theorem pyStartsWith_append_self (p s : String) :
    pyStartsWith (p ++ s) p = true := by
  unfold pyStartsWith
  rw [string_data_append]
  exact List.isPrefixOf_iff_prefix.mpr (List.prefix_append _ _)

theorem mem_pyDedupAux {α : Type} [DecidableEq α] (a : α) (l : List α) :
    ∀ seen : List α, a ∈ pyDedupAux seen l ↔ a ∈ l ∧ a ∉ seen := by
  induction l with
  | nil => intro seen; simp [pyDedupAux]
  | cons x xs ih =>
      intro seen
      rw [pyDedupAux]
      by_cases hx : x ∈ seen
      · rw [if_pos hx, ih]
        by_cases hax : a = x
        · subst hax; simp [hx]
        · simp [hax]
      · rw [if_neg hx]
        by_cases hax : a = x
        · subst hax; simp [hx]
        · simp [List.mem_cons, ih, hax]

theorem mem_pyDedup {α : Type} [DecidableEq α] (a : α) (l : List α) :
    a ∈ pyDedup l ↔ a ∈ l := by
  rw [pyDedup, mem_pyDedupAux]
  simp

theorem nodup_pyDedupAux {α : Type} [DecidableEq α] (l : List α) :
    ∀ seen : List α, (pyDedupAux seen l).Nodup := by
  induction l with
  | nil => intro seen; simp [pyDedupAux]
  | cons x xs ih =>
      intro seen
      rw [pyDedupAux]
      by_cases hx : x ∈ seen
      · rw [if_pos hx]; exact ih seen
      · rw [if_neg hx, List.nodup_cons]
        refine ⟨fun hmem => ?_, ih (x :: seen)⟩
        rw [mem_pyDedupAux] at hmem
        exact hmem.2 (List.mem_cons_self x seen)

theorem nodup_pyDedup {α : Type} [DecidableEq α] (l : List α) :
    (pyDedup l).Nodup :=
  nodup_pyDedupAux l []

theorem pyDedup_eq_nil_iff {α : Type} [DecidableEq α] (l : List α) :
    pyDedup l = [] ↔ l = [] := by
  cases l with
  | nil => simp [pyDedup, pyDedupAux]
  | cons x xs => simp [pyDedup, pyDedupAux]

theorem listenerLoop_eq (bs sensor : Bool)
    (removeResult : String → RemoveOutcome) (ents : List RegistryEnt) :
    listenerLoop bs sensor removeResult ents =
      (ents.filter (disabledPlatform bs sensor)).map
        (fun e => ListenerAction.removeAttempt e.entity_id) := by
  induction ents with
  | nil => rfl
  | cons e rest ih =>
      rw [listenerLoop, List.filter_cons]
      by_cases h : disabledPlatform bs sensor e = true
      · rw [if_pos h, h]
        cases removeResult e.entity_id <;> simp [ih]
      · rw [if_neg h]
        simp only [Bool.not_eq_true] at h
        rw [h]
        simp [ih]

/-- A hosted-service entry data value used to instantiate theorems. -/
def exampleData : EntryData :=
  { api_key := "k1"
    site_root := "https://healthchecks.io"
    ping_endpoint := "https://hc-ping.com"
    self_hosted := false
    create_binary_sensor := true
    create_sensor := false
    ping_uuid := some "abc123"
    check := none }

/-- C1: for every config entry, `async_setup_entry` performs exactly one
first refresh of the coordinator, before forwarding any platforms; if the
first refresh fails, the error propagates to the caller and no platforms
are forwarded. -/
theorem setup_first_refresh_gates_platforms (d : EntryData)
    (r : Except CoordinatorInitError Unit) :
    ((async_setup_entry d r).2.count SetupEffect.firstRefresh = 1) ∧
    ((async_setup_entry d r).2.head? = some SetupEffect.firstRefresh) ∧
    (∀ e, r = Except.error e →
      (async_setup_entry d r).1 = Except.error e ∧
      ∀ ps, SetupEffect.forwardPlatforms ps ∉ (async_setup_entry d r).2) ∧
    (r = Except.ok () →
      (async_setup_entry d r).2 =
        [SetupEffect.firstRefresh,
          SetupEffect.forwardPlatforms (platformList d)] ∧
      (async_setup_entry d r).1 = Except.ok (true, mkCoordinator d)) := by
  cases r with
  | error e => simp [async_setup_entry, List.count_cons]
  | ok u => cases u; simp [async_setup_entry, List.count_cons]

/-- Witness for C1 at a concrete entry and a failing first refresh. -/
theorem setup_first_refresh_gates_platforms_witness :
    (async_setup_entry exampleData
        (Except.error (CoordinatorInitError.initFailed "down"))).1 =
      Except.error (CoordinatorInitError.initFailed "down") :=
  ((setup_first_refresh_gates_platforms exampleData
      (Except.error (CoordinatorInitError.initFailed "down"))).2.2.1 _ rfl).1

/-- C2: under the configuration-layer invariant that a non-self-hosted
entry uses the official hosted URLs, the two sessions created by
`async_setup_entry` verify TLS certificates unless the corresponding
target (site root for the check session, ping endpoint for the ping
session) is self-hosted over a non-HTTPS root; a non-self-hosted
configuration always verifies, and a self-hosted HTTPS root still
verifies. -/
theorem sessions_verify_ssl (d : EntryData)
    (hdef : d.self_hosted = false →
      d.site_root = DEFAULT_SITE_ROOT ∧ d.ping_endpoint = DEFAULT_PING_ENDPOINT) :
    ((mkCoordinator d).check_verify_ssl = false →
      d.self_hosted = true ∧ pyStartsWith d.site_root "https" = false) ∧
    ((mkCoordinator d).ping_verify_ssl = false →
      d.self_hosted = true ∧ pyStartsWith d.ping_endpoint "https" = false) ∧
    (d.self_hosted = false →
      (mkCoordinator d).check_verify_ssl = true ∧
      (mkCoordinator d).ping_verify_ssl = true) ∧
    (pyStartsWith d.site_root "https" = true →
      (mkCoordinator d).check_verify_ssl = true) ∧
    (pyStartsWith d.ping_endpoint "https" = true →
      (mkCoordinator d).ping_verify_ssl = true) ∧
    (d.self_hosted = true → pyStartsWith d.site_root "https" = false →
      (mkCoordinator d).check_verify_ssl = false) ∧
    (d.self_hosted = true → pyStartsWith d.ping_endpoint "https" = false →
      (mkCoordinator d).ping_verify_ssl = false) := by
  have hc : (mkCoordinator d).check_verify_ssl = pyStartsWith d.site_root "https" := rfl
  have hp : (mkCoordinator d).ping_verify_ssl = pyStartsWith d.ping_endpoint "https" := rfl
  have hd1 : pyStartsWith DEFAULT_SITE_ROOT "https" = true := by decide
  have hd2 : pyStartsWith DEFAULT_PING_ENDPOINT "https" = true := by decide
  refine ⟨?_, ?_, ?_, ?_, ?_, ?_, ?_⟩
  · intro h
    rw [hc] at h
    cases hs : d.self_hosted with
    | false =>
        obtain ⟨h1, _⟩ := hdef hs
        rw [h1, hd1] at h
        exact absurd h (by decide)
    | true => exact ⟨rfl, h⟩
  · intro h
    rw [hp] at h
    cases hs : d.self_hosted with
    | false =>
        obtain ⟨_, h2⟩ := hdef hs
        rw [h2, hd2] at h
        exact absurd h (by decide)
    | true => exact ⟨rfl, h⟩
  · intro h0
    obtain ⟨h1, h2⟩ := hdef h0
    constructor
    · rw [hc, h1]; exact hd1
    · rw [hp, h2]; exact hd2
  · intro h; rw [hc]; exact h
  · intro h; rw [hp]; exact h
  · intro _ h; rw [hc]; exact h
  · intro _ h; rw [hp]; exact h

/-- Witness for C2 at a concrete non-self-hosted entry. -/
theorem sessions_verify_ssl_witness :
    (mkCoordinator exampleData).check_verify_ssl = true ∧
    (mkCoordinator exampleData).ping_verify_ssl = true :=
  (sessions_verify_ssl exampleData (fun _ => ⟨rfl, rfl⟩)).2.2.1 rfl

/-- A coordinator state holding a snapshot from a successful refresh, used
to instantiate theorems. -/
def exampleState : CoordinatorState :=
  { snapshot :=
      { records :=
          [{ id := "c1", name := "db", status := "up"
             lastPing := some 5, nPings := 7 }]
        capturedAt := 100
        fresh := true }
    lastError := none }

/-- C3: a refresh cycle whose fetch fails after a prior successful
refresh leaves the snapshot records and capture timestamp untouched;
afterwards `getSnapshot` returns the prior records with the freshness
flag false, and only the freshness flag and the recorded error change. -/
theorem failed_fetch_keeps_snapshot (st : CoordinatorState) (now : Nat)
    (err : RemoteFetchError) (_hprior : (getSnapshot st).fresh = true) :
    (getSnapshot (refreshCycle st now (Except.error err)).1).records =
      (getSnapshot st).records ∧
    (getSnapshot (refreshCycle st now (Except.error err)).1).capturedAt =
      (getSnapshot st).capturedAt ∧
    (getSnapshot (refreshCycle st now (Except.error err)).1).fresh = false ∧
    (refreshCycle st now (Except.error err)).1.lastError = some err :=
  ⟨rfl, rfl, rfl, rfl⟩

/-- Witness for C3 at a concrete state after a prior success. -/
theorem failed_fetch_keeps_snapshot_witness :
    (getSnapshot (refreshCycle exampleState 200
        (Except.error RemoteFetchError.timeout)).1).records =
      (getSnapshot exampleState).records ∧
    (getSnapshot (refreshCycle exampleState 200
        (Except.error RemoteFetchError.timeout)).1).capturedAt =
      (getSnapshot exampleState).capturedAt ∧
    (getSnapshot (refreshCycle exampleState 200
        (Except.error RemoteFetchError.timeout)).1).fresh = false ∧
    (refreshCycle exampleState 200
        (Except.error RemoteFetchError.timeout)).1.lastError =
      some RemoteFetchError.timeout :=
  failed_fetch_keeps_snapshot exampleState 200 RemoteFetchError.timeout rfl

/-- C4: a refresh cycle whose fetch fails issues no ping call: the only
remote call of the cycle is the fetch itself. -/
theorem no_ping_on_failed_fetch (st : CoordinatorState) (now : Nat)
    (err : RemoteFetchError) :
    (refreshCycle st now (Except.error err)).2 = [RemoteCall.fetchStatus] ∧
    RemoteCall.sendPing ∉ (refreshCycle st now (Except.error err)).2 := by
  refine ⟨rfl, ?_⟩
  intro h
  simp [refreshCycle] at h

/-- Witness for C4 at a concrete state and a concrete fetch failure. -/
theorem no_ping_on_failed_fetch_witness :
    RemoteCall.sendPing ∉
      (refreshCycle exampleState 200
        (Except.error RemoteFetchError.transport)).2 :=
  (no_ping_on_failed_fetch exampleState 200 RemoteFetchError.transport).2

/-- C5: the ping URL is `{pingEndpoint}/{pingIdentifier}` when
self-hosted and `https://hc-ping.com/{pingIdentifier}` for the official
hosted service; in particular the self-hosted endpoint `http://local/ping`
with identifier `abc123` yields `http://local/ping/abc123`, and the
hosted service with identifier `abc123` yields
`https://hc-ping.com/abc123`. -/
theorem ping_url_construction :
    (∀ ep pid, pingURL true ep pid = ep ++ "/" ++ pid) ∧
    (∀ ep pid, pingURL false ep pid = "https://hc-ping.com/" ++ pid) ∧
    pingURL true "http://local/ping" "abc123" = "http://local/ping/abc123" ∧
    pingURL false DEFAULT_PING_ENDPOINT "abc123" = "https://hc-ping.com/abc123" :=
  ⟨fun _ _ => rfl, fun _ _ => rfl, rfl, rfl⟩

/-- A version-1 (self-hosted) config entry used to instantiate theorems. -/
def v1Entry : ConfigEntryModel :=
  { version := 1
    data :=
      { api_key := "k1"
        site_root := "http://local"
        ping_endpoint := "ping"
        self_hosted := true
        create_binary_sensor := false
        create_sensor := false
        ping_uuid := none
        check := some "abc123" }
    unique_id := none }

/-- A version-2 config entry used to instantiate theorems. -/
def v2Entry : ConfigEntryModel :=
  { version := 2, data := exampleData, unique_id := some "k1" }

/-- A version-3 config entry (a downgrade from a future version) used to
instantiate theorems. -/
def v3Entry : ConfigEntryModel :=
  { version := 3, data := exampleData, unique_id := some "k1" }

/-- C6: migration is versioned and idempotent: an entry already at
version 2 is reported migrated with its data untouched (no step runs),
and migrating a version-1 entry twice gives the same entry and registry
as migrating it once. -/
theorem migrate_versioned_idempotent (cu : String → String)
    (e : ConfigEntryModel) (reg : List RegistryEnt) :
    (e.version = 2 → async_migrate_entry cu e reg = (true, e, reg)) ∧
    (e.version = 1 →
      (async_migrate_entry cu e reg).1 = true ∧
      (async_migrate_entry cu e reg).2.1.version = 2 ∧
      async_migrate_entry cu (async_migrate_entry cu e reg).2.1
          (async_migrate_entry cu e reg).2.2 =
        (true, (async_migrate_entry cu e reg).2.1,
          (async_migrate_entry cu e reg).2.2)) := by
  constructor
  · intro h2
    simp [async_migrate_entry, h2]
  · intro h1
    have hm : async_migrate_entry cu e reg =
        (true,
          { version := 2, data := migrateData cu e.data
            unique_id := some (migrateData cu e.data).api_key },
          entityPass reg) := by
      simp [async_migrate_entry, h1, migrate_1_to_2]
    rw [hm]
    exact ⟨rfl, rfl, by simp [async_migrate_entry]⟩

/-- Witness for C6 at concrete version-2 and version-1 entries. -/
theorem migrate_versioned_idempotent_witness :
    async_migrate_entry id v2Entry [] = (true, v2Entry, []) ∧
    (async_migrate_entry id v1Entry []).1 = true ∧
    async_migrate_entry id (async_migrate_entry id v1Entry []).2.1
        (async_migrate_entry id v1Entry []).2.2 =
      (true, (async_migrate_entry id v1Entry []).2.1,
        (async_migrate_entry id v1Entry []).2.2) :=
  ⟨(migrate_versioned_idempotent id v2Entry []).1 rfl,
    ((migrate_versioned_idempotent id v1Entry []).2 rfl).1,
    ((migrate_versioned_idempotent id v1Entry []).2 rfl).2.2⟩

/-- C7: the options-update listener always finishes by reloading the
config entry; its action trace is one removal attempt per now-disabled
entity followed by the reload, independent of whether any removal raises
`KeyError` or `ValueError` — each failure is contained per entity and no
other entity is skipped. -/
theorem listener_always_reloads (d : EntryData) (ents : List RegistryEnt)
    (removeResult : String → RemoveOutcome) :
    async_update_listener d ents removeResult =
      (ents.filter (disabledPlatform d.create_binary_sensor d.create_sensor)).map
        (fun e => ListenerAction.removeAttempt e.entity_id) ++
        [ListenerAction.reload] ∧
    (async_update_listener d ents removeResult).getLast? =
      some ListenerAction.reload := by
  constructor
  · rw [async_update_listener, listenerLoop_eq]
  · rw [async_update_listener]
    simp

/-- C8: a config entry whose version is above 2 (a downgrade from a
future version) is refused: migration returns `False` and runs no
migration step, leaving entry and registry untouched. -/
theorem future_version_refused (cu : String → String)
    (e : ConfigEntryModel) (reg : List RegistryEnt) (h : 2 < e.version) :
    async_migrate_entry cu e reg = (false, e, reg) := by
  simp [async_migrate_entry, h]

/-- Witness for C8 at a concrete version-3 entry. -/
theorem future_version_refused_witness :
    async_migrate_entry id v3Entry [] = (false, v3Entry, []) :=
  future_version_refused id v3Entry [] (by decide)

/-- A platform list with a duplicate active platform, used to instantiate
theorems. -/
def examplePlatforms : List PlatformObj :=
  [ { domain := "binary_sensor", owner := some ("entry1", ConfigEntryState.loaded) },
    { domain := "binary_sensor", owner := some ("entry1", ConfigEntryState.loaded) },
    { domain := "sensor", owner := some ("entry2", ConfigEntryState.loaded) } ]

/-- C9: unloading never propagates `ValueError` or `OperationNotAllowed`
(such an exception yields result `False`); the single unload call gets
the active platforms deduplicated (each distinct platform at most once);
and with no active platform the entry unloads as `True` with no unload
call at all. -/
theorem unload_entry_contained (platforms : List PlatformObj)
    (entryId : String) (unloadResult : List String → UnloadOutcome) :
    (activePlatforms platforms entryId = [] →
      async_unload_entry platforms entryId unloadResult = (true, none)) ∧
    (∀ l, (async_unload_entry platforms entryId unloadResult).2 = some l →
      l = pyDedup (activePlatforms platforms entryId) ∧ l.Nodup ∧
      ∀ x, x ∈ l ↔ x ∈ activePlatforms platforms entryId) ∧
    (pyDedup (activePlatforms platforms entryId) ≠ [] →
      (unloadResult (pyDedup (activePlatforms platforms entryId)) =
          UnloadOutcome.valueError ∨
        unloadResult (pyDedup (activePlatforms platforms entryId)) =
          UnloadOutcome.operationNotAllowed) →
      (async_unload_entry platforms entryId unloadResult).1 = false) := by
  refine ⟨?_, ?_, ?_⟩
  · intro h
    have hu : pyDedup (activePlatforms platforms entryId) = [] :=
      (pyDedup_eq_nil_iff _).mpr h
    simp [async_unload_entry, hu]
  · intro l hl
    by_cases hu : pyDedup (activePlatforms platforms entryId) = []
    · simp [async_unload_entry, hu] at hl
    · have hlu : l = pyDedup (activePlatforms platforms entryId) := by
        rw [async_unload_entry] at hl
        simp only [if_neg hu] at hl
        cases hres : unloadResult (pyDedup (activePlatforms platforms entryId)) <;>
          rw [hres] at hl <;> simpa using hl.symm
      subst hlu
      exact ⟨rfl, nodup_pyDedup _, fun x => mem_pyDedup x _⟩
  · intro hne hor
    rw [async_unload_entry]
    simp only [if_neg hne]
    rcases hor with h | h <;> rw [h]

/-- Witness for C9: a duplicate-platform entry whose unload raises
`ValueError` unloads as `False`, and an entry with no active platforms
unloads as `True` with no unload call. -/
theorem unload_entry_contained_witness :
    (async_unload_entry examplePlatforms "entry1"
        (fun _ => UnloadOutcome.valueError)).1 = false ∧
    async_unload_entry [] "entry1" (fun _ => UnloadOutcome.valueError) =
      (true, none) :=
  ⟨(unload_entry_contained examplePlatforms "entry1"
      (fun _ => UnloadOutcome.valueError)).2.2 (by decide) (Or.inl rfl),
    (unload_entry_contained [] "entry1"
      (fun _ => UnloadOutcome.valueError)).1 rfl⟩

/-- A binary-sensor registry entry with an unprefixed unique id, used to
instantiate theorems. -/
def exampleEnt : RegistryEnt :=
  { entity_id := "binary_sensor.db", unique_id := "hc_db" }

/-- C10: the migration registry pass renames an entity only when it is a
binary sensor whose unique id does not already start with
`binary_sensor_`, and then the new unique id is exactly that text
prepended to the old one — so a renamed unique id carries the text
exactly once, and running the pass again changes no unique id. -/
theorem entity_rename_prefixed_once (e : RegistryEnt)
    (reg : List RegistryEnt) :
    (migrateEnt e = e ∨
      ((migrateEnt e).entity_id = e.entity_id ∧
        (migrateEnt e).unique_id = "binary_sensor_" ++ e.unique_id ∧
        platformOf e.entity_id = "binary_sensor" ∧
        pyStartsWith e.unique_id "binary_sensor_" = false ∧
        pyStartsWith (migrateEnt e).unique_id "binary_sensor_" = true)) ∧
    ((migrateEnt e).unique_id ≠ e.unique_id →
      platformOf e.entity_id = "binary_sensor" ∧
      pyStartsWith e.unique_id "binary_sensor_" = false ∧
      (migrateEnt e).unique_id = "binary_sensor_" ++ e.unique_id) ∧
    migrateEnt (migrateEnt e) = migrateEnt e ∧
    entityPass (entityPass reg) = entityPass reg := by
  have hsplit : ∀ x : RegistryEnt,
      migrateEnt x = x ∨
        (((platformOf x.entity_id != "binary_sensor") ||
            pyStartsWith x.unique_id "binary_sensor_") = false ∧
          migrateEnt x =
            { x with unique_id := "binary_sensor_" ++ x.unique_id }) := by
    intro x
    by_cases hc : ((platformOf x.entity_id != "binary_sensor") ||
        pyStartsWith x.unique_id "binary_sensor_") = true
    · left; rw [migrateEnt, if_pos hc]
    · right
      rw [Bool.not_eq_true] at hc
      exact ⟨hc, by rw [migrateEnt, hc]; simp⟩
  have key : ∀ x : RegistryEnt, migrateEnt (migrateEnt x) = migrateEnt x := by
    intro x
    rcases hsplit x with h | ⟨hc, h⟩
    · rw [h, h]
    · rw [h]
      have h2 : ((platformOf
            ({ x with unique_id := "binary_sensor_" ++ x.unique_id } :
              RegistryEnt).entity_id != "binary_sensor") ||
          pyStartsWith
            ({ x with unique_id := "binary_sensor_" ++ x.unique_id } :
              RegistryEnt).unique_id "binary_sensor_") = true := by
        simp only [pyStartsWith_append_self, Bool.or_true]
      rw [migrateEnt, if_pos h2]
  have hcond : ∀ x : RegistryEnt,
      ((platformOf x.entity_id != "binary_sensor") ||
          pyStartsWith x.unique_id "binary_sensor_") = false →
        platformOf x.entity_id = "binary_sensor" ∧
        pyStartsWith x.unique_id "binary_sensor_" = false := by
    intro x hc
    rw [Bool.or_eq_false_iff] at hc
    exact ⟨by simpa using hc.1, hc.2⟩
  refine ⟨?_, ?_, key e, ?_⟩
  · rcases hsplit e with h | ⟨hc, h⟩
    · exact Or.inl h
    · right
      obtain ⟨hplat, hpre⟩ := hcond e hc
      refine ⟨by rw [h], by rw [h], hplat, hpre, ?_⟩
      rw [h]
      simpa using pyStartsWith_append_self "binary_sensor_" e.unique_id
  · intro hne
    rcases hsplit e with h | ⟨hc, h⟩
    · exact absurd (by rw [h]) hne
    · obtain ⟨hplat, hpre⟩ := hcond e hc
      exact ⟨hplat, hpre, by rw [h]⟩
  · have hfun : (fun x => migrateEnt (migrateEnt x)) = migrateEnt :=
      funext key
    calc entityPass (entityPass reg)
        = reg.map (fun x => migrateEnt (migrateEnt x)) := by
          rw [entityPass, entityPass, List.map_map]; rfl
      _ = entityPass reg := by rw [hfun, entityPass]

/-- Witness for C10 at a concrete unprefixed binary-sensor entity. -/
theorem entity_rename_prefixed_once_witness :
    (migrateEnt exampleEnt).unique_id =
      "binary_sensor_" ++ exampleEnt.unique_id ∧
    migrateEnt (migrateEnt exampleEnt) = migrateEnt exampleEnt :=
  ⟨((entity_rename_prefixed_once exampleEnt []).2.1 (by decide)).2.2,
    (entity_rename_prefixed_once exampleEnt []).2.2.1⟩
